import Mathlib

/-!
Verification development for the github-monitor repository.

The embedding covers the two core subsystems:
 * `generate_provisioning.py` — the Grafana provisioning artifact generator
   (`GrafanaConfig`, `GrafanaProvisioningGenerator`, `load_config_from_env`);
 * `validate_backlog.py` — the backlog requirement validator
   (`BacklogValidator`, its eight rule methods, and its helper probes).

Python string primitives are embedded as executable functions on `List Char`
so that every definition reduces inside the kernel.  Structured YAML/JSON
payloads are embedded as a `JVal` document tree; serialization order of the
object fields follows the Python dict literal order, which Python preserves.
-/

/-! ## Python string primitives -/

-- str.split(sep) for a one-character separator: splitting "" yields [""],
-- separators at the ends yield empty segments, exactly as in Python.
def charSplit (sep : Char) : List Char → List (List Char)
  | [] => [[]]
  | c :: rest =>
    let r := charSplit sep rest
    if c = sep then [] :: r
    else
      match r with
      | [] => [[c]]
      | seg :: segs => (c :: seg) :: segs

-- repo.split(sep)[-1]
def pyLastSegment (sep : Char) (cs : List Char) : List Char :=
  (charSplit sep cs).getLastD []

-- repo.split(sep)[0]
def pyFirstSegment (sep : Char) (cs : List Char) : List Char :=
  (charSplit sep cs).headD []

-- repo.split("/")[-1] on strings
def bare_name (repo : String) : String :=
  ⟨pyLastSegment '/' repo.data⟩

-- repo.split("/")[0] on strings
def owner_prefix (repo : String) : String :=
  ⟨pyFirstSegment '/' repo.data⟩

-- s.split(sep) on strings
def pySplitChar (sep : Char) (s : String) : List String :=
  (charSplit sep s.data).map String.mk

-- strip a character class from both ends (str.strip variants)
def stripEnds (p : Char → Bool) (cs : List Char) : List Char :=
  ((cs.dropWhile p).reverse.dropWhile p).reverse

-- s.strip()
def pyStrip (s : String) : String :=
  ⟨stripEnds Char.isWhitespace s.data⟩

def quoteChar (c : Char) : Bool :=
  c = '"' || c = Char.ofNat 39

-- s.strip("\x22\x27") as used on .env values
def pyStripQuotes (s : String) : String :=
  ⟨stripEnds quoteChar s.data⟩

-- sep.join(xs)
def pyJoin (sep : String) : List String → String
  | [] => ""
  | [x] => x
  | x :: y :: rest => x ++ sep ++ pyJoin sep (y :: rest)

-- pat in s (substring containment)
def listContainsSub (pat cs : List Char) : Bool :=
  (List.range (cs.length + 1)).any fun i => pat.isPrefixOf (cs.drop i)

def pyIn (pat s : String) : Bool :=
  listContainsSub pat.data s.data

-- s.lower() (ASCII, as used on panel titles and env flags)
def pyLower (s : String) : String :=
  ⟨s.data.map Char.toLower⟩

-- s.startswith(pre)
def pyStartsWith (pre s : String) : Bool :=
  pre.data.isPrefixOf s.data

-- str(bool).lower()
def pyBoolStr (b : Bool) : String :=
  if b then "true" else "false"

/-! ## ConfigModel: `GrafanaConfig` (a plain dataclass, no validation) -/

structure GrafanaConfig where
  github_token : String
  organizations : List String
  repositories : List String
  server_root_url : String := "http://localhost:3000"
  server_domain : String := "localhost"
  enforce_domain : Bool := true
deriving DecidableEq

/-! ## Structured document payloads -/

inductive JVal where
  | str (s : String)
  | num (n : Nat)
  | bool (b : Bool)
  | arr (elems : List JVal)
  | obj (fields : List (String × JVal))

-- all string atoms and keys occurring in a document
mutual

def JVal.strings : JVal → List String
  | .str s => [s]
  | .num _ => []
  | .bool _ => []
  | .arr elems => JVal.stringsArr elems
  | .obj fields => JVal.stringsObj fields

def JVal.stringsArr : List JVal → List String
  | [] => []
  | v :: vs => v.strings ++ JVal.stringsArr vs

def JVal.stringsObj : List (String × JVal) → List String
  | [] => []
  | (k, v) :: kvs => k :: (v.strings ++ JVal.stringsObj kvs)

end

-- first value bound to a key in an object document
def JVal.lookup (k : String) : JVal → Option JVal
  | .obj fields => (fields.find? (fun kv => kv.1 == k)).map (·.2)
  | _ => none

/-! ## GrafanaProvisioningGenerator: the five artifact payloads -/

-- generate_datasource_config: config_data (RF01).  The token appears only as
-- the placeholder reference "$\x7bGITHUB_TOKEN\x7d"; the config is not read at all.
def datasource_config_data (_cfg : GrafanaConfig) : JVal :=
  .obj
    [("apiVersion", .num 1),
     ("datasources",
      .arr
        [.obj
          [("name", .str "GitHub"),
           ("type", .str "grafana-github-datasource"),
           ("access", .str "proxy"),
           ("isDefault", .bool true),
           ("secureJsonData", .obj [("accessToken", .str "$\x7bGITHUB_TOKEN\x7d")]),
           ("editable", .bool false)]])]

-- generate_dashboard_config: config_data (RF02)
def dashboard_provider_config_data (_cfg : GrafanaConfig) : JVal :=
  .obj
    [("apiVersion", .num 1),
     ("providers",
      .arr
        [.obj
          [("name", .str "default"),
           ("orgId", .num 1),
           ("folder", .str ""),
           ("type", .str "file"),
           ("disableDeletion", .bool true),
           ("updateIntervalSeconds", .num 10),
           ("allowUiUpdates", .bool false),
           ("options",
            .obj
              [("path", .str "/var/lib/grafana/dashboards"),
               ("foldersFromFilesStructure", .bool true)])]])]

-- generate_access_control_config: config_data (RF03)
def access_control_config_data (_cfg : GrafanaConfig) : JVal :=
  .obj
    [("apiVersion", .num 1),
     ("roles",
      .arr
        [.obj
          [("name", .str "restricted_viewer"),
           ("description",
            .str "A viewer with no access to the Grafana API except for viewing dashboards"),
           ("permissions",
            .arr
              [.obj [("action", .str "dashboards:read"), ("scope", .str "dashboards:*")],
               .obj [("action", .str "datasources:read"), ("scope", .str "datasources:*")]])]]),
     ("assignments",
      .arr
        [.obj
          [("name", .str "read_only_anon"),
           ("role", .str "restricted_viewer"),
           ("target", .str "anonymous")]])]

-- generate_grafana_ini: ini_content (US02), an f-string over the config
def grafana_ini_content (cfg : GrafanaConfig) : String :=
  "[paths]\nprovisioning = /etc/grafana/provisioning\n\n[server]\nroot_url = "
    ++ cfg.server_root_url
    ++ "\ndomain = "
    ++ cfg.server_domain
    ++ "\nenforce_domain = "
    ++ pyBoolStr cfg.enforce_domain
    ++ "\n\n[security]\nallow_embedding = true\ndisable_gravatar = true\ncookie_secure = true\ncookie_samesite = strict\ndisable_initial_admin_creation = true\n\n[auth]\ndisable_login_form = true \noauth_auto_login = false\n\n[auth.anonymous]\nenabled = true\norg_role = Viewer\nhide_version = true\n\n[dashboards]\ndefault_home_dashboard_path = /var/lib/grafana/dashboards/github.json\nmin_refresh_interval = 1m\n\n[analytics]\nreporting_enabled = false\ncheck_for_updates = false\n\n[feature_toggles]\npublicDashboards = false\naccessTokenExpirationCheck = false\n"

-- update_dashboard_templates: repo_names and repo_regex (US03)
def repo_names_of (cfg : GrafanaConfig) : List String :=
  cfg.repositories.map bare_name

def repo_regex_of (cfg : GrafanaConfig) : String :=
  "^(" ++ pyJoin "|" (repo_names_of cfg) ++ ")$"

-- update_dashboard_templates: org_options (selected iff index 0)
def org_options_of (cfg : GrafanaConfig) : List JVal :=
  cfg.organizations.enum.map fun p =>
    .obj [("selected", .bool (p.1 == 0)), ("text", .str p.2), ("value", .str p.2)]

-- update_dashboard_templates: dashboard_updates dict
def dashboard_updates_of (cfg : GrafanaConfig) : JVal :=
  .obj
    [("repo_regex", .str (repo_regex_of cfg)),
     ("org_options", .arr (org_options_of cfg)),
     ("default_org",
      .str (match cfg.organizations with
            | [] => "docker"
            | o :: _ => o)),
     ("org_list", .str (pyJoin "," cfg.organizations))]

-- update_dashboard_templates always writes exactly this one file; the method
-- body contains no raise and no conditional guarding the write.
def update_dashboard_templates (cfg : GrafanaConfig) : List (String × JVal) :=
  [("dashboard_config.json", dashboard_updates_of cfg)]

/-! ## generate_all as a single run -/

structure GenOutputs where
  datasource : JVal
  dashboardProvider : JVal
  accessControl : JVal
  serverTemplate : String
  filterParams : JVal
  log : List String

-- generate_all on the success path: the five payloads plus the printed log
-- lines; `now` stands for datetime.now() and feeds only the log.
def generate_all_run (cfg : GrafanaConfig) (now : String) : GenOutputs :=
  { datasource := datasource_config_data cfg
    dashboardProvider := dashboard_provider_config_data cfg
    accessControl := access_control_config_data cfg
    serverTemplate := grafana_ini_content cfg
    filterParams := dashboard_updates_of cfg
    log :=
      ["✅ Provisioning successfully generated at " ++ now,
       "📊 Organizations have been configured: " ++ pyJoin ", " cfg.organizations,
       "📁 Repositories have been filtered: "
         ++ toString cfg.repositories.length ++ " repositories"] }

-- the artifact payload bundle of a run, log dropped
def GenOutputs.payloads (o : GenOutputs) : JVal × JVal × JVal × String × JVal :=
  (o.datasource, o.dashboardProvider, o.accessControl, o.serverTemplate, o.filterParams)

/-! ## generate_all control flow under failures

`generate_all` is a straight-line sequence of six calls with no exception
handling; an exception in any step propagates and aborts the remaining
steps (`main` catches it and reports).  Each step is abstracted as an IO
action that either completes or raises. -/

inductive GenStep where
  | createDirs
  | datasource
  | dashboardProvider
  | accessControl
  | serverTemplate
  | filterParams
deriving DecidableEq

def gen_order : List GenStep :=
  [.createDirs, .datasource, .dashboardProvider, .accessControl,
   .serverTemplate, .filterParams]

-- generate_all: returns the steps whose writes completed and the step whose
-- exception aborted the run, if any.
def generate_all_steps (io : GenStep → Bool) : List GenStep × Option GenStep :=
  if io .createDirs then
    if io .datasource then
      if io .dashboardProvider then
        if io .accessControl then
          if io .serverTemplate then
            if io .filterParams then
              ([.createDirs, .datasource, .dashboardProvider, .accessControl,
                .serverTemplate, .filterParams], none)
            else
              ([.createDirs, .datasource, .dashboardProvider, .accessControl,
                .serverTemplate], some .filterParams)
          else
            ([.createDirs, .datasource, .dashboardProvider, .accessControl],
             some .serverTemplate)
        else
          ([.createDirs, .datasource, .dashboardProvider], some .accessControl)
      else
        ([.createDirs, .datasource], some .dashboardProvider)
    else
      ([.createDirs], some .datasource)
  else
    ([], some .createDirs)

/-! ## load_config_from_env -/

-- load_config_from_env after the .env export step: the five environment
-- values it reads (with their getenv defaults already applied by the caller).
def load_config_from_env (github_token repos_str gf_root_url gf_domain gf_enforce : String) :
    Except String GrafanaConfig :=
  if github_token = "" then
    .error "GITHUB_TOKEN is required"
  else if repos_str = "" then
    .error "REPOS env var is required (format: org1/repo1, org2/repo2)"
  else
    let repositories := (pySplitChar ',' repos_str).map pyStrip
    let organizations := (repositories.map owner_prefix).dedup
    .ok
      { github_token := github_token
        organizations := organizations
        repositories := repositories
        server_root_url := gf_root_url
        server_domain := gf_domain
        enforce_domain := pyLower gf_enforce == "true" }

/-! ## A regular-expression semantics for the generated filter

The generated `repo_regex` string always has the shape
`^(name1|name2|...)$`: anchors around a parenthesised alternation of
literal repository names.  `Regex` is a standard regular-expression
syntax with the standard matching relation; `altOfNames` is the abstract
syntax tree that this string denotes (anchors are expressed by `RMatch`
being a whole-string matching relation), and `renderRegex` maps the tree
back to its concrete text between the anchors. -/

inductive Regex where
  | emptyStr
  | char (c : Char)
  | seq (r₁ r₂ : Regex)
  | alt (r₁ r₂ : Regex)

inductive RMatch : Regex → List Char → Prop where
  | emptyStr : RMatch .emptyStr []
  | char (c : Char) : RMatch (.char c) [c]
  | seq {r₁ r₂ : Regex} {s₁ s₂ : List Char} :
      RMatch r₁ s₁ → RMatch r₂ s₂ → RMatch (.seq r₁ r₂) (s₁ ++ s₂)
  | altL {r₁ r₂ : Regex} {s : List Char} : RMatch r₁ s → RMatch (.alt r₁ r₂) s
  | altR {r₁ r₂ : Regex} {s : List Char} : RMatch r₂ s → RMatch (.alt r₁ r₂) s

def litRe : List Char → Regex
  | [] => .emptyStr
  | c :: cs => .seq (.char c) (litRe cs)

def altOfNames : List String → Regex
  | [] => .emptyStr
  | [n] => litRe n.data
  | n :: m :: rest => .alt (litRe n.data) (altOfNames (m :: rest))

def renderRegex : Regex → List Char
  | .emptyStr => []
  | .char c => [c]
  | .seq a b => renderRegex a ++ renderRegex b
  | .alt a b => renderRegex a ++ '|' :: renderRegex b

-- the restricted character set of valid repository path components:
-- alphanumerics, dash and underscore carry no regular-expression meaning
def regexSafeChar (c : Char) : Bool :=
  c.isAlphanum || c = '-' || c = '_'

-- a well-formed configured repository entry "owner/name"
def ValidRepoEntry (r : String) : Prop :=
  ∃ owner name : String,
    r = owner ++ "/" ++ name ∧ name ≠ "" ∧
    (∀ c ∈ owner.data, c ≠ '/') ∧ (∀ c ∈ name.data, regexSafeChar c = true)

/-! ## BacklogValidator: data model -/

structure ValidationResult where
  requirement_id : String
  description : String
  status : Bool
  details : String
  category : String
deriving DecidableEq

-- the parse of dashboards/github.json, as far as the validator reads it:
-- templating.list entries (name, regex field), panel titles, time range keys
structure TemplVar where
  name : String
  regex : Option String
deriving DecidableEq

structure GithubDashboard where
  templating_list : List TemplVar
  panel_titles : List String
  time_has_from_to : Bool
deriving DecidableEq

-- the .env file as the validator reads it: absent (FileNotFoundError is
-- swallowed), readable lines, or a read that raises some other OSError /
-- UnicodeDecodeError (which nothing in validate_backlog.py catches)
inductive EnvRead where
  | missing
  | lines (ls : List String)
  | ioFailure
deriving DecidableEq

-- the world state a validation run reads: file existence, the .env file,
-- HTTP probe outcomes (requests wrapped in bare excepts, so a Bool),
-- docker compose exit status, and parse results of the artifact files
-- (none models a missing or unparseable file, as all parses sit inside
-- try/except blocks)
structure World where
  fileExists : String → Bool
  env : EnvRead
  grafanaHealthy : Bool
  grafanaAccessible : Bool
  dockerComposeValid : Bool
  githubDashboard : Option GithubDashboard
  datasourceTypes : Option (List String)
  grafanaIniFile : Option String
  dockerComposeFile : Option String
  dashboardConfigRepoRegex : Option (Option String)
  customDashboards : List String
  grafanaUrl : String

/-! ## BacklogValidator: helper probes -/

-- _get_configured_repositories: only FileNotFoundError is caught; any other
-- error while reading .env propagates to the caller.
def get_configured_repositories (w : World) : Except Unit (List String) :=
  match w.env with
  | .ioFailure => .error ()
  | .missing => .ok []
  | .lines ls =>
    match ls.find? (fun line => pyStartsWith "REPOS=" line) with
    | none => .ok []
    | some line =>
      let repos_str := pyStripQuotes (pyStrip (line.drop 6))
      .ok (((pySplitChar ',' repos_str).map pyStrip).filter (fun r => r ≠ ""))

-- _get_configured_organizations
def get_configured_organizations (w : World) : Except Unit (List String) := do
  let repos ← get_configured_repositories w
  pure (((repos.filter (fun r => listContainsSub ['/'] r.data)).map owner_prefix).dedup)

-- _check_datasource_config
def check_datasource_config (w : World) : Bool :=
  w.fileExists "provisioning/datasources/datasource.yaml" &&
    match w.datasourceTypes with
    | some types => types.contains "grafana-github-datasource"
    | none => false

-- _check_default_dashboard
def check_default_dashboard (w : World) : Bool :=
  match w.grafanaIniFile with
  | some content => pyIn "default_home_dashboard_path" content
  | none => false

-- _check_anonymous_access
def check_anonymous_access (w : World) : Bool :=
  match w.dockerComposeFile with
  | some content => pyIn "GF_AUTH_ANONYMOUS_ENABLED=true" content
  | none => false

-- _check_dashboard_filters
def check_dashboard_filters (w : World) : Bool :=
  w.fileExists "dashboard_config.json" &&
    match w.dashboardConfigRepoRegex with
    | some (some regex) => regex ≠ ""
    | _ => false

-- _check_available_metrics: the if/elif chain classifying one panel title
def classify_title (title : String) : Option String :=
  if pyIn "issue" (pyLower title) then some "Issues"
  else if pyIn "pull request" (pyLower title) || pyIn "pr" (pyLower title) then
    some "Pull Requests"
  else if pyIn "commit" (pyLower title) then some "Commits"
  else if pyIn "release" (pyLower title) then some "Releases"
  else none

-- _check_available_metrics: list(set(metrics)) modelled as dedup (the
-- validator only ever uses the length and the elements of this list)
def check_available_metrics (w : World) : List String :=
  if w.fileExists "dashboards/github.json" then
    match w.githubDashboard with
    | some d => (d.panel_titles.filterMap classify_title).dedup
    | none => []
  else []

-- _check_historical_data_config
def check_historical_data_config (w : World) : Bool :=
  if w.fileExists "dashboards/github.json" then
    match w.githubDashboard with
    | some d => d.time_has_from_to
    | none => false
  else false

/-! ## BacklogValidator: the eight requirement rules -/

def expected_dashboards : List String :=
  ["github.json", "github-organization.json"]

-- _validate_fr01
def validate_fr01 (w : World) : ValidationResult :=
  let dashboards_exist := expected_dashboards.all (fun d => w.fileExists ("dashboards/" ++ d))
  let config_exists := w.fileExists "provisioning/dashboards/dashboard.yaml"
  let grafana_running := w.grafanaHealthy
  let details :=
    [if dashboards_exist then "✅ Dashboards found: " ++ pyJoin ", " expected_dashboards
     else "❌ Dashboards not found",
     if config_exists then "✅ Provisioning configuration present"
     else "❌ Provisioning configuration missing",
     if grafana_running then "✅ Grafana responding"
     else "⚠️  Grafana is not running"]
  { requirement_id := "FR01"
    description := "Pre-configured dashboards to monitor GitHub activities"
    status := dashboards_exist && config_exists
    details := pyJoin "; " details
    category := "FR" }

-- _validate_fr02 (reads .env through _get_configured_repositories, whose
-- unexpected errors propagate)
def validate_fr02 (w : World) : Except Unit ValidationResult := do
  let repos ← get_configured_repositories w
  let orgs ← get_configured_organizations w
  let org_dashboard_exists := w.fileExists "dashboards/github-organization.json"
  let details :=
    [if !repos.isEmpty && decide (repos.length > 1) then
       "✅ Multiple repositories configured: " ++ toString repos.length
     else "❌ Need to configure multiple repositories",
     if !orgs.isEmpty then "✅ Organizations detected: " ++ pyJoin ", " orgs
     else "❌ No organizations detected",
     if org_dashboard_exists then "✅ Organization dashboard present"
     else "❌ Organization dashboard missing"]
  pure
    { requirement_id := "FR02"
      description := "View statistics from multiple repositories"
      status := decide (repos.length > 1) && decide (orgs.length ≥ 1) && org_dashboard_exists
      details := pyJoin "; " details
      category := "FR" }

-- _validate_fr03
def validate_fr03 (w : World) : ValidationResult :=
  let access_exists := w.fileExists "provisioning/access-control/api-permissions.yaml"
  let has_filters :=
    w.fileExists "dashboards/github.json" &&
      match w.githubDashboard with
      | some d =>
        match d.templating_list.find? (fun v => v.name == "repository") with
        | some v =>
          match v.regex with
          | some r => r != ""
          | none => false
        | none => false
      | none => false
  let filter_config_exists := w.fileExists "dashboard_config.json"
  let details :=
    [if access_exists then "✅ Access control configured"
     else "❌ Access control not configured",
     if has_filters then "✅ Repository filters configured"
     else "❌ Repository filters not found",
     if filter_config_exists then "✅ Filter configuration present"
     else "❌ Filter configuration missing"]
  { requirement_id := "FR03"
    description := "Filter access to displayed repositories"
    status := access_exists && has_filters
    details := pyJoin "; " details
    category := "FR" }

def essential_files : List String :=
  ["docker-compose.yml", "provisioning/datasources/datasource.yaml",
   "grafana.ini.template", ".env"]

-- _validate_epic01
def validate_epic01 (w : World) : ValidationResult :=
  let files_exist := essential_files.all w.fileExists
  let docker_valid := w.dockerComposeValid
  let datasource_ok := check_datasource_config w
  let details :=
    [if files_exist then "✅ Essential files present"
     else "❌ Missing files: " ++ pyJoin ", " (essential_files.filter (fun f => !w.fileExists f)),
     if docker_valid then "✅ Docker Compose valid"
     else "❌ Docker Compose invalid",
     if datasource_ok then "✅ GitHub datasource configured"
     else "❌ GitHub datasource not configured"]
  { requirement_id := "EPIC01"
    description := "Monitoring infrastructure set up"
    status := files_exist && docker_valid && datasource_ok
    details := pyJoin "; " details
    category := "EPIC" }

def customization_scripts : List String :=
  ["generate_provisioning.py", "update_dashboards.py", "interactive_setup.py"]

-- _validate_epic02
def validate_epic02 (w : World) : ValidationResult :=
  let scripts_exist := customization_scripts.all w.fileExists
  let custom_config := w.fileExists "dashboard_config.json"
  let custom_dashboards := if w.fileExists "dashboards" then w.customDashboards else []
  let details :=
    [if scripts_exist then "✅ Customization scripts present"
     else "❌ Missing scripts: " ++ pyJoin ", " (customization_scripts.filter (fun s => !w.fileExists s)),
     if custom_config then "✅ Custom configuration generated"
     else "❌ Custom configuration not found",
     if !custom_dashboards.isEmpty then "✅ Custom dashboards: " ++ toString custom_dashboards.length
     else "ℹ️  No custom dashboards (optional)"]
  { requirement_id := "EPIC02"
    description := "Filtering and custom visualization implemented"
    status := scripts_exist && custom_config
    details := pyJoin "; " details
    category := "EPIC" }

-- _validate_us01
def validate_us01 (w : World) : ValidationResult :=
  let grafana_accessible := w.grafanaAccessible
  let default_dashboard_config := check_default_dashboard w
  let anonymous_access := check_anonymous_access w
  let details :=
    [if grafana_accessible then "✅ Grafana accessible at " ++ w.grafanaUrl
     else "❌ Grafana not accessible at " ++ w.grafanaUrl,
     if default_dashboard_config then "✅ Default dashboard configured"
     else "❌ Default dashboard not configured",
     if anonymous_access then "✅ Anonymous access enabled"
     else "❌ Anonymous access not enabled"]
  { requirement_id := "US01"
    description := "Ready-made dashboards to track activity"
    status := grafana_accessible && default_dashboard_config
    details := pyJoin "; " details
    category := "US" }

-- _validate_us02 (reads .env through _get_configured_repositories)
def validate_us02 (w : World) : Except Unit ValidationResult := do
  let repos ← get_configured_repositories w
  let has_repo_filter := decide (repos.length > 0)
  let dashboard_filters := check_dashboard_filters w
  let update_script := w.fileExists "update_dashboards.py"
  let details :=
    [if has_repo_filter then "✅ Specific repositories configured: " ++ toString repos.length
     else "❌ No specific repositories configured",
     if dashboard_filters then "✅ Filters applied in dashboards"
     else "❌ Filters not applied in dashboards",
     if update_script then "✅ Update script available"
     else "❌ Update script not found"]
  pure
    { requirement_id := "US02"
      description := "Repository filtering for administrator"
      status := has_repo_filter && dashboard_filters && update_script
      details := pyJoin "; " details
      category := "US" }

-- _validate_us03
def validate_us03 (w : World) : ValidationResult :=
  let metrics_available := check_available_metrics w
  let multi_metrics := decide (metrics_available.length ≥ 3)
  let historical_data := check_historical_data_config w
  let details :=
    [if !metrics_available.isEmpty then "✅ Available metrics: " ++ pyJoin ", " metrics_available
     else "❌ Metrics not configured",
     if multi_metrics then "✅ Multiple metrics configured"
     else "❌ Insufficient metrics (minimum: issues, PRs, commits)",
     if historical_data then "✅ Historical data configured"
     else "⚠️  Historical data depends on time"]
  { requirement_id := "US03"
    description := "Specific metrics for collaborators"
    status := decide (metrics_available.length ≥ 2)
    details := pyJoin "; " details
    category := "US" }

/-! ## BacklogValidator.validate_all_requirements

The method body calls the eight rule methods in sequence with no exception
handling of its own; `self.results` accumulates the appended results.  An
exception inside a rule aborts the sequence: the value carried by `.error`
is the contents of `self.results` at the moment the exception escaped. -/

def validate_all_requirements (w : World) :
    Except (List ValidationResult) (List ValidationResult) :=
  let r1 := validate_fr01 w
  match validate_fr02 w with
  | .error _ => .error [r1]
  | .ok r2 =>
    let r3 := validate_fr03 w
    let r4 := validate_epic01 w
    let r5 := validate_epic02 w
    let r6 := validate_us01 w
    match validate_us02 w with
    | .error _ => .error [r1, r2, r3, r4, r5, r6]
    | .ok r7 =>
      let r8 := validate_us03 w
      .ok [r1, r2, r3, r4, r5, r6, r7, r8]

-- the grouped_results dict built on the success path
def grouped_results (rs : List ValidationResult) :
    List ValidationResult × List ValidationResult × List ValidationResult :=
  (rs.filter (fun r => r.category == "FR"),
   rs.filter (fun r => r.category == "EPIC"),
   rs.filter (fun r => r.category == "US"))

/-! ## Helper lemmas about the string primitives -/

theorem charSplit_ne_nil (sep : Char) (cs : List Char) : charSplit sep cs ≠ [] := by
  cases cs with
  | nil => simp [charSplit]
  | cons c rest =>
    simp only [charSplit]
    split
    · simp
    · split <;> simp

theorem charSplit_no_sep (sep : Char) (cs : List Char) (h : ∀ c ∈ cs, c ≠ sep) :
    charSplit sep cs = [cs] := by
  induction cs with
  | nil => rfl
  | cons c rest ih =>
    have hc : c ≠ sep := h c (by simp)
    have hr : charSplit sep rest = [rest] := ih (fun x hx => h x (by simp [hx]))
    simp [charSplit, hc, hr]

theorem charSplit_append_sep (sep : Char) (l₁ l₂ : List Char) :
    charSplit sep (l₁ ++ sep :: l₂) = charSplit sep l₁ ++ charSplit sep l₂ := by
  induction l₁ with
  | nil => simp [charSplit]
  | cons c rest ih =>
    by_cases hc : c = sep
    · subst hc
      simp [charSplit, ih]
    · obtain ⟨seg, segs, hr⟩ : ∃ seg segs, charSplit sep rest = seg :: segs := by
        cases hcs : charSplit sep rest with
        | nil => exact absurd hcs (charSplit_ne_nil sep rest)
        | cons a b => exact ⟨a, b, rfl⟩
      simp [charSplit, hc, ih, hr]

-- the bare repository name of a well-formed "owner/name" entry is the name
theorem bare_name_append (owner name : String) (h : ∀ c ∈ name.data, c ≠ '/') :
    bare_name (owner ++ "/" ++ name) = name := by
  apply String.ext
  show pyLastSegment '/' (owner ++ "/" ++ name).data = name.data
  have hdata : (owner ++ "/" ++ name).data = owner.data ++ '/' :: name.data := by
    simp [String.data_append]
  rw [hdata]
  unfold pyLastSegment
  rw [charSplit_append_sep, charSplit_no_sep '/' name.data h]
  simp

theorem regexSafeChar_ne_slash {c : Char} (h : regexSafeChar c = true) : c ≠ '/' := by
  intro hc
  subst hc
  revert h
  decide

/-! ## Helper lemmas about the regular-expression semantics -/

theorem RMatch_litRe (cs xs : List Char) : RMatch (litRe cs) xs ↔ xs = cs := by
  induction cs generalizing xs with
  | nil =>
    constructor
    · intro h
      cases h
      rfl
    · rintro rfl
      exact RMatch.emptyStr
  | cons c rest ih =>
    constructor
    · intro h
      cases h with
      | seq h₁ h₂ =>
        cases h₁
        rw [ih] at h₂
        simp [h₂]
    · rintro rfl
      exact RMatch.seq (RMatch.char c) ((ih rest).mpr rfl)

theorem RMatch_altOfNames (n : String) (rest : List String) (xs : List Char) :
    RMatch (altOfNames (n :: rest)) xs ↔ ∃ k ∈ n :: rest, xs = k.data := by
  induction rest generalizing n with
  | nil => simp [altOfNames, RMatch_litRe]
  | cons m t ih =>
    constructor
    · intro h
      cases h with
      | altL h₁ => exact ⟨n, List.mem_cons_self n _, (RMatch_litRe _ _).mp h₁⟩
      | altR h₂ =>
        obtain ⟨k, hk, hx⟩ := (ih m).mp h₂
        exact ⟨k, List.mem_cons_of_mem n hk, hx⟩
    · rintro ⟨k, hk, rfl⟩
      rcases List.mem_cons.mp hk with hk | hk
      · subst hk
        exact RMatch.altL ((RMatch_litRe _ _).mpr rfl)
      · exact RMatch.altR ((ih m).mpr ⟨k, hk, rfl⟩)

theorem renderRegex_litRe (cs : List Char) : renderRegex (litRe cs) = cs := by
  induction cs with
  | nil => rfl
  | cons c rest ih => simp [litRe, renderRegex, ih]

theorem renderRegex_altOfNames (ns : List String) :
    renderRegex (altOfNames ns) = (pyJoin "|" ns).data := by
  induction ns with
  | nil => rfl
  | cons n rest ih =>
    cases rest with
    | nil => simp [altOfNames, pyJoin, renderRegex_litRe]
    | cons m t =>
      simp only [altOfNames, renderRegex, renderRegex_litRe, ih, pyJoin,
        String.data_append]
      simp

/-! ## Claim C5 -/

/-- C5: for every ConfigModel, running the artifact generator twice with the
same `GrafanaConfig` yields identical payload content for every generated
artifact (datasource, dashboard provider, access control, server template,
filter parameters).  Each payload is a function of the config alone; the
run moment `now` (datetime.now()) feeds only the printed log, so two runs
at different moments produce byte-identical payloads. -/
theorem c5_generate_all_idempotent (cfg : GrafanaConfig) (now₁ now₂ : String) :
    (generate_all_run cfg now₁).payloads = (generate_all_run cfg now₂).payloads := rfl

/-! ## Claim C9 -/

-- the non-secret constant strings of the datasource document, in document order
def datasource_public_strings : List String :=
  ["apiVersion", "datasources", "name", "GitHub", "type", "grafana-github-datasource",
   "access", "proxy", "isDefault", "secureJsonData", "accessToken",
   "$\x7bGITHUB_TOKEN\x7d", "editable"]

theorem datasource_strings_eq (cfg : GrafanaConfig) :
    (datasource_config_data cfg).strings = datasource_public_strings := rfl

-- two configurations that agree on everything except the token
def tokenOnlyDiff (a b : GrafanaConfig) : Prop :=
  a.organizations = b.organizations ∧ a.repositories = b.repositories ∧
  a.server_root_url = b.server_root_url ∧ a.server_domain = b.server_domain ∧
  a.enforce_domain = b.enforce_domain

/-- C9: for any two configurations differing only in the token value,
generate_datasource_config produces identical datasource payloads, and the
literal secret value never appears in the generated artifact (the token is
referenced only through the fixed placeholder): for any token that is not
itself one of the artifact's fixed public constants, the token string does
not occur anywhere in the document. -/
theorem c9_datasource_token_noninterference (a b : GrafanaConfig)
    (_hdiff : tokenOnlyDiff a b)
    (hsecret : a.github_token ∉ datasource_public_strings) :
    datasource_config_data a = datasource_config_data b ∧
      a.github_token ∉ (datasource_config_data a).strings := by
  refine ⟨rfl, ?_⟩
  rw [datasource_strings_eq]
  exact hsecret

/-- C9 witness: two concrete configs differing only in the token. -/
theorem c9_datasource_token_noninterference_witness :
    datasource_config_data
        { github_token := "ghp-secret-number-one", organizations := ["docker"],
          repositories := ["docker/buildx"] } =
      datasource_config_data
        { github_token := "ghp-secret-number-two", organizations := ["docker"],
          repositories := ["docker/buildx"] } ∧
      "ghp-secret-number-one" ∉
        (datasource_config_data
          { github_token := "ghp-secret-number-one", organizations := ["docker"],
            repositories := ["docker/buildx"] }).strings :=
  c9_datasource_token_noninterference _ _ ⟨rfl, rfl, rfl, rfl, rfl⟩ (by decide)

/-! ## Claim C10 -/

/-- C10: when update_dashboard_templates runs with an empty organizations
list, the filter-parameters document carries the hard-coded fallback
"docker" as default_org while org_list is the empty string. -/
theorem c10_empty_orgs_default_docker (cfg : GrafanaConfig)
    (h : cfg.organizations = []) :
    (dashboard_updates_of cfg).lookup "default_org" = some (.str "docker") ∧
      (dashboard_updates_of cfg).lookup "org_list" = some (.str "") := by
  constructor <;> simp [dashboard_updates_of, JVal.lookup, List.find?, h, pyJoin]

/-- C10 witness at a concrete empty-organizations config. -/
theorem c10_empty_orgs_default_docker_witness :
    (dashboard_updates_of
        { github_token := "t", organizations := [], repositories := [] }).lookup
        "default_org" = some (.str "docker") ∧
      (dashboard_updates_of
        { github_token := "t", organizations := [], repositories := [] }).lookup
        "org_list" = some (.str "") :=
  c10_empty_orgs_default_docker _ rfl

/-! ## Claim C1 -/

def emptyReposConfig : GrafanaConfig :=
  { github_token := "token", organizations := [], repositories := [] }

/-- C1 counterexample: with an empty repositories list,
update_dashboard_templates does not fail — its body contains no raise and
no check — and it writes the filter-parameters artifact, whose repo_regex
is the literal "^()$" (a regex matching exactly the empty string).  This
contradicts the claim that generation fails with a ConfigurationError and
writes no filter-parameters artifact. -/
theorem c1_empty_repos_counterexample :
    update_dashboard_templates emptyReposConfig =
      [("dashboard_config.json", dashboard_updates_of emptyReposConfig)] ∧
      (update_dashboard_templates emptyReposConfig).length = 1 ∧
      repo_regex_of emptyReposConfig = "^()$" := by
  refine ⟨rfl, rfl, ?_⟩
  decide

/-- C1 amended: for every configuration with an empty repositories list,
update_dashboard_templates succeeds and writes exactly the
dashboard_config.json artifact with repo_regex "^()$"; the rejection of an
empty repository configuration happens earlier and elsewhere, in
load_config_from_env, which raises (ValueError, not ConfigurationError) on
an empty REPOS value before any generation runs. -/
theorem c1_empty_repos_amended (cfg : GrafanaConfig)
    (h : cfg.repositories = [])
    (tok url dom enf : String) (htok : tok ≠ "") :
    update_dashboard_templates cfg =
      [("dashboard_config.json", dashboard_updates_of cfg)] ∧
      repo_regex_of cfg = "^()$" ∧
      load_config_from_env tok "" url dom enf =
        .error "REPOS env var is required (format: org1/repo1, org2/repo2)" := by
  refine ⟨rfl, ?_, ?_⟩
  · simp [repo_regex_of, repo_names_of, h, pyJoin]
  · simp [load_config_from_env, htok]

/-- C1 amended witness at a concrete empty-repositories config. -/
theorem c1_empty_repos_amended_witness :
    update_dashboard_templates emptyReposConfig =
      [("dashboard_config.json", dashboard_updates_of emptyReposConfig)] ∧
      repo_regex_of emptyReposConfig = "^()$" ∧
      load_config_from_env "token" "" "http://localhost:3000" "localhost" "true" =
        .error "REPOS env var is required (format: org1/repo1, org2/repo2)" :=
  c1_empty_repos_amended emptyReposConfig rfl "token" "http://localhost:3000"
    "localhost" "true" (by decide)

/-! ## Claim C6 -/

-- an IO behaviour in which only the datasource write raises
def datasourceFailIO : GenStep → Bool :=
  fun s => !(s == GenStep.datasource)

/-- C6 counterexample: under an IO behaviour where only the datasource
generator raises, generate_all stops at the datasource step: the dashboard
provider generator (and every later one) never runs even though its own
write would have succeeded.  This contradicts the claim that a failure in
one individual artifact generator does not prevent the remaining
generators from running. -/
theorem c6_generate_all_counterexample :
    generate_all_steps datasourceFailIO = ([GenStep.createDirs], some GenStep.datasource) ∧
      datasourceFailIO GenStep.dashboardProvider = true ∧
      GenStep.dashboardProvider ∉ (generate_all_steps datasourceFailIO).1 := by
  refine ⟨rfl, rfl, ?_⟩
  decide

/-- C6 amended: generate_all runs the generators in the fixed order
directories, datasource, dashboard provider, access control, server
template, filter parameters; the completed steps are always the longest
all-successful prefix of that order and the first failing step — whether
directory creation or an individual artifact generator — aborts the whole
run (its exception propagates to main), with already-completed artifacts
left in place (no rollback). -/
theorem c6_generate_all_amended (io : GenStep → Bool) :
    generate_all_steps io = (gen_order.takeWhile io, (gen_order.dropWhile io).head?) := by
  cases h0 : io .createDirs <;> cases h1 : io .datasource <;>
    cases h2 : io .dashboardProvider <;> cases h3 : io .accessControl <;>
      cases h4 : io .serverTemplate <;> cases h5 : io .filterParams <;>
        simp [generate_all_steps, gen_order, h0, h1, h2, h3, h4, h5,
          List.takeWhile_cons, List.dropWhile_cons]

/-! ## Claim C4 -/

-- the derivation invariant claimed for the ConfigModel
def orgs_invariant (cfg : GrafanaConfig) : Prop :=
  cfg.organizations.toFinset = (cfg.repositories.map owner_prefix).toFinset

-- GrafanaConfig is a plain dataclass: any field values construct an instance
def invalidOrgsConfig : GrafanaConfig :=
  { github_token := "t", organizations := ["intruder"], repositories := ["docker/buildx"] }

/-- C4 counterexample: GrafanaConfig performs no validation (it is a bare
dataclass), so this directly constructed instance — reachable through the
public constructor — carries an organizations field that is not the set of
owner prefixes of its repositories, and nothing rejects or corrects it. -/
theorem c4_orgs_invariant_counterexample : ¬ orgs_invariant invalidOrgsConfig := by
  unfold orgs_invariant
  decide

/-- C4 amended: the derivation invariant is not enforced by GrafanaConfig
itself, but it does hold for every config produced by load_config_from_env:
there organizations is computed as the deduplicated list of owner prefixes
of repositories, so it equals the set of distinct owner prefixes and is
duplicate-free. -/
theorem c4_orgs_invariant_amended (tok repos url dom enf : String)
    (cfg : GrafanaConfig)
    (h : load_config_from_env tok repos url dom enf = .ok cfg) :
    orgs_invariant cfg ∧ cfg.organizations.Nodup := by
  unfold load_config_from_env at h
  by_cases htok : tok = ""
  · simp [htok] at h
  · by_cases hrep : repos = ""
    · simp [htok, hrep] at h
    · simp only [htok, hrep, if_false] at h
      cases h
      constructor
      · unfold orgs_invariant
        apply Finset.ext
        intro x
        simp
      · exact List.nodup_dedup _

-- the config load_config_from_env produces on a concrete two-repo input
def demoLoadedConfig : GrafanaConfig :=
  { github_token := "t"
    organizations := ["docker", "grafana"]
    repositories := ["docker/buildx", "grafana/grafana"]
    server_root_url := "http://localhost:3000"
    server_domain := "localhost"
    enforce_domain := true }

/-- C4 amended witness: the invariant at a concretely loaded config. -/
theorem c4_orgs_invariant_amended_witness :
    orgs_invariant demoLoadedConfig ∧ demoLoadedConfig.organizations.Nodup :=
  c4_orgs_invariant_amended "t" "docker/buildx, grafana/grafana"
    "http://localhost:3000" "localhost" "true" demoLoadedConfig rfl

/-! ## Claim C3 -/

/-- C3: for every valid configuration — a non-empty repositories list whose
entries all have the owner/name shape with names over the restricted
character set — the repo_regex string written by update_dashboard_templates
is the anchored rendering of the alternation of the bare repository names,
and that alternation matches exactly the bare names (owner prefix stripped)
of config.repositories and no other strings; moreover every embedded name
is non-empty and free of regular-expression metacharacters, so the rendered
text is a faithful literal alternation. -/
theorem c3_repo_regex_exact (cfg : GrafanaConfig)
    (hne : cfg.repositories ≠ [])
    (hvalid : ∀ r ∈ cfg.repositories, ValidRepoEntry r) :
    (repo_regex_of cfg).data =
        '^' :: '(' :: (renderRegex (altOfNames (repo_names_of cfg)) ++ [')', '$']) ∧
      (∀ s : String, RMatch (altOfNames (repo_names_of cfg)) s.data ↔ s ∈ repo_names_of cfg) ∧
      (∀ n ∈ repo_names_of cfg, n ≠ "" ∧ ∀ c ∈ n.data, regexSafeChar c = true) := by
  have hnames : ∀ n ∈ repo_names_of cfg, n ≠ "" ∧ ∀ c ∈ n.data, regexSafeChar c = true := by
    intro n hn
    obtain ⟨r, hr, hbare⟩ := List.mem_map.mp hn
    obtain ⟨owner, name, hshape, hname_ne, _hown, hsafe⟩ := hvalid r hr
    have hslash : ∀ c ∈ name.data, c ≠ '/' :=
      fun c hc => regexSafeChar_ne_slash (hsafe c hc)
    have hbn : bare_name r = name := by
      rw [hshape]
      exact bare_name_append owner name hslash
    rw [← hbare, hbn]
    exact ⟨hname_ne, hsafe⟩
  refine ⟨?_, ?_, hnames⟩
  · simp [repo_regex_of, renderRegex_altOfNames, String.data_append]
  · intro s
    obtain ⟨n, rest, hcons⟩ : ∃ n rest, repo_names_of cfg = n :: rest := by
      cases hrn : repo_names_of cfg with
      | nil =>
        have : cfg.repositories = [] := by
          have := congrArg List.length hrn
          simpa [repo_names_of] using this
        exact absurd this hne
      | cons a b => exact ⟨a, b, rfl⟩
    rw [hcons, RMatch_altOfNames]
    constructor
    · rintro ⟨k, hk, hdata⟩
      have : s = k := String.ext hdata
      rw [this]
      exact hk
    · intro hs
      exact ⟨s, hs, rfl⟩

-- a concrete two-repository configuration (spec example scenario 1)
def demoConfig : GrafanaConfig :=
  { github_token := "t", organizations := ["docker", "grafana"],
    repositories := ["docker/buildx", "grafana/grafana"] }

/-- C3 witness: at the concrete two-repository config, "buildx" matches the
generated alternation, "docker" (an owner, not a bare name) does not, and
the regex string renders as expected. -/
theorem c3_repo_regex_exact_witness :
    RMatch (altOfNames (repo_names_of demoConfig)) "buildx".data ∧
      ¬ RMatch (altOfNames (repo_names_of demoConfig)) "docker".data ∧
      repo_regex_of demoConfig = "^(buildx|grafana)$" := by
  have hvalid : ∀ r ∈ demoConfig.repositories, ValidRepoEntry r := by
    intro r hr
    simp only [demoConfig, List.mem_cons, List.mem_singleton, List.not_mem_nil,
      or_false] at hr
    rcases hr with rfl | rfl
    · exact ⟨"docker", "buildx", by decide, by decide, by decide, by decide⟩
    · exact ⟨"grafana", "grafana", by decide, by decide, by decide, by decide⟩
  have h := c3_repo_regex_exact demoConfig (by decide) hvalid
  refine ⟨?_, ?_, ?_⟩
  · exact (h.2.1 "buildx").mpr (by decide)
  · intro hm
    have := (h.2.1 "docker").mp hm
    revert this
    decide
  · decide

/-! ## Claim C7 -/

-- the file-existence part of the FR01 detail text
def fr01_files_detail (w : World) : String :=
  (if expected_dashboards.all (fun d => w.fileExists ("dashboards/" ++ d)) then
     "✅ Dashboards found: " ++ pyJoin ", " expected_dashboards
   else "❌ Dashboards not found") ++ "; " ++
  (if w.fileExists "provisioning/dashboards/dashboard.yaml" then
     "✅ Provisioning configuration present"
   else "❌ Provisioning configuration missing")

/-- C7: the dashboard-availability rule (FR01) passes iff both named
dashboard files and the provider config file exist; the health probe's
outcome changes only the trailing piece of the detail text and has no
effect on the pass/fail status. -/
theorem c7_fr01_rule (w : World) :
    ((validate_fr01 w).status = true ↔
      (w.fileExists "dashboards/github.json" = true ∧
       w.fileExists "dashboards/github-organization.json" = true ∧
       w.fileExists "provisioning/dashboards/dashboard.yaml" = true)) ∧
    (∀ b : Bool,
      (validate_fr01 { w with grafanaHealthy := b }).status = (validate_fr01 w).status) ∧
    ((validate_fr01 w).details =
      fr01_files_detail w ++ "; " ++
        (if w.grafanaHealthy then "✅ Grafana responding"
         else "⚠️  Grafana is not running")) := by
  refine ⟨?_, fun b => rfl, ?_⟩
  · have h1 : ("dashboards/" ++ "github.json" : String) = "dashboards/github.json" := rfl
    have h2 : ("dashboards/" ++ "github-organization.json" : String) =
        "dashboards/github-organization.json" := rfl
    simp [validate_fr01, expected_dashboards, h1, h2, Bool.and_eq_true, and_assoc]
  · simp [validate_fr01, fr01_files_detail, pyJoin, String.append_assoc]

/-! ## Claim C2 -/

theorem get_repos_ok (w : World) (h : w.env ≠ EnvRead.ioFailure) :
    ∃ repos, get_configured_repositories w = .ok repos := by
  unfold get_configured_repositories
  cases henv : w.env with
  | ioFailure => exact absurd henv h
  | missing => exact ⟨[], rfl⟩
  | lines ls =>
    cases hf : ls.find? (fun line => pyStartsWith "REPOS=" line) with
    | none => exact ⟨[], by simp [hf]⟩
    | some line =>
      exact ⟨((pySplitChar ',' (pyStripQuotes (pyStrip (line.drop 6)))).map pyStrip).filter
        (fun r => r ≠ ""), by simp [hf]⟩

theorem validate_fr02_ok (w : World) (repos : List String)
    (h : get_configured_repositories w = .ok repos) :
    ∃ r : ValidationResult, validate_fr02 w = Except.ok r ∧ r.requirement_id = "FR02" := by
  unfold validate_fr02 get_configured_organizations
  rw [h]
  exact ⟨_, rfl, rfl⟩

theorem validate_us02_ok (w : World) (repos : List String)
    (h : get_configured_repositories w = .ok repos) :
    ∃ r : ValidationResult, validate_us02 w = Except.ok r ∧ r.requirement_id = "US02" := by
  unfold validate_us02
  rw [h]
  exact ⟨_, rfl, rfl⟩

-- a world in which iterating over .env raises an error that is not a
-- FileNotFoundError (e.g. the file's tail is not valid UTF-8, so the line
-- iteration inside _get_configured_repositories raises UnicodeDecodeError)
def envFailWorld : World :=
  { fileExists := fun _ => false
    env := .ioFailure
    grafanaHealthy := false
    grafanaAccessible := false
    dockerComposeValid := false
    githubDashboard := none
    datasourceTypes := none
    grafanaIniFile := none
    dockerComposeFile := none
    dashboardConfigRepoRegex := none
    customDashboards := []
    grafanaUrl := "http://localhost:3000" }

/-- C2 counterexample: in a world where reading .env raises an error other
than FileNotFoundError, the exception raised inside FR02's check
(_get_configured_repositories) propagates out of validate_all_requirements:
the run aborts carrying only FR01's result, so no failed result is recorded
for FR02 and none of the six later rules run.  This contradicts the claim
that any unexpected error inside a rule's check is caught and converted
into a failed result with all other rules still producing results. -/
theorem c2_fault_isolation_counterexample :
    validate_all_requirements envFailWorld = .error [validate_fr01 envFailWorld] ∧
      [validate_fr01 envFailWorld].length = 1 := by
  exact ⟨rfl, rfl⟩

/-- C2 amended: validate_all_requirements has no exception handling of its
own; the anticipated failure modes (missing files, unreachable service,
unparseable artifacts, absent .env) are absorbed inside the individual
sub-checks, so whenever reading .env does not raise an unexpected error the
run completes with all eight rule results in fixed order — but an
unexpected .env read error propagates out of the run (aborting after FR01)
rather than being converted into a failed result. -/
theorem c2_fault_isolation_amended (w : World) (h : w.env ≠ EnvRead.ioFailure) :
    ∃ rs : List ValidationResult,
      validate_all_requirements w = .ok rs ∧
        rs.map (fun r => r.requirement_id) =
          ["FR01", "FR02", "FR03", "EPIC01", "EPIC02", "US01", "US02", "US03"] := by
  obtain ⟨repos, hrepos⟩ := get_repos_ok w h
  obtain ⟨r2, h2, hid2⟩ := validate_fr02_ok w repos hrepos
  obtain ⟨r7, h7, hid7⟩ := validate_us02_ok w repos hrepos
  refine ⟨[validate_fr01 w, r2, validate_fr03 w, validate_epic01 w,
    validate_epic02 w, validate_us01 w, r7, validate_us03 w], ?_, ?_⟩
  · unfold validate_all_requirements
    rw [h2, h7]
  · simp [validate_fr01, validate_fr03, validate_epic01, validate_epic02,
      validate_us01, validate_us03, hid2, hid7]

-- a world whose .env file simply does not exist (FileNotFoundError path)
def envMissingWorld : World :=
  { fileExists := fun _ => false
    env := .missing
    grafanaHealthy := false
    grafanaAccessible := false
    dockerComposeValid := false
    githubDashboard := none
    datasourceTypes := none
    grafanaIniFile := none
    dockerComposeFile := none
    dashboardConfigRepoRegex := none
    customDashboards := []
    grafanaUrl := "http://localhost:3000" }

/-- C2 amended witness: a complete eight-result run at a concrete world. -/
theorem c2_fault_isolation_amended_witness :
    ∃ rs : List ValidationResult,
      validate_all_requirements envMissingWorld = .ok rs ∧
        rs.map (fun r => r.requirement_id) =
          ["FR01", "FR02", "FR03", "EPIC01", "EPIC02", "US01", "US02", "US03"] :=
  c2_fault_isolation_amended envMissingWorld (by decide)

/-! ## Claim C8 -/

theorem classify_title_mem (t m : String) (h : classify_title t = some m) :
    m = "Issues" ∨ m = "Pull Requests" ∨ m = "Commits" ∨ m = "Releases" := by
  unfold classify_title at h
  split_ifs at h <;> simp_all

theorem check_available_metrics_nodup (w : World) :
    (check_available_metrics w).Nodup := by
  unfold check_available_metrics
  split
  · split
    · exact List.nodup_dedup _
    · exact List.nodup_nil
  · exact List.nodup_nil

-- Modelled from the claim wording, for comparison with the code: a category
-- is recognized iff its keyword occurs case-insensitively as a substring of
-- some panel title, so one title can contribute several categories.
def spec_recognized_categories (titles : List String) : List String :=
  ([("Issues", "issues"), ("Pull Requests", "pull requests"),
    ("Commits", "commits"), ("Releases", "releases")].filter
      (fun kv => titles.any (fun t => pyIn kv.2 (pyLower t)))).map (fun kv => kv.1)

-- a world whose primary dashboard has one panel naming two metrics
def elifWorld : World :=
  { fileExists := fun p => p == "dashboards/github.json"
    env := .missing
    grafanaHealthy := false
    grafanaAccessible := false
    dockerComposeValid := false
    githubDashboard :=
      some { templating_list := [], panel_titles := ["Open Issues and Commits"],
             time_has_from_to := false }
    datasourceTypes := none
    grafanaIniFile := none
    dockerComposeFile := none
    dashboardConfigRepoRegex := none
    customDashboards := []
    grafanaUrl := "http://localhost:3000" }

/-- C8 counterexample: the panel title "Open Issues and Commits" contains
the keywords of two categories, so under the claim's reading the rule would
recognize two categories and pass; but the code's if/elif chain stops at
the first match ("issue"), collects only Issues, and the rule fails.  The
claimed iff is therefore false for this dashboard. -/
theorem c8_metrics_visibility_counterexample :
    spec_recognized_categories ["Open Issues and Commits"] = ["Issues", "Commits"] ∧
      check_available_metrics elifWorld = ["Issues"] ∧
      (validate_us03 elifWorld).status = false := by
  refine ⟨by decide, by decide, by decide⟩

-- the set of metric categories the code collects from the primary dashboard
def us03_metrics_finset (w : World) : Finset String :=
  (check_available_metrics w).toFinset

/-- C8 amended: the metrics-visibility rule (US03) passes iff the set of
metric categories collected by the code's first-match if/elif chain (each
panel title contributes at most one category: the first of issue, pull
request/pr, commit, release whose keyword occurs case-insensitively in the
title) has at least 2 distinct elements; every collected category belongs
to the fixed vocabulary. -/
theorem c8_metrics_visibility_amended (w : World) :
    ((validate_us03 w).status = true ↔ 2 ≤ (us03_metrics_finset w).card) ∧
      us03_metrics_finset w ⊆ {"Issues", "Pull Requests", "Commits", "Releases"} := by
  have hnd := check_available_metrics_nodup w
  have hcard : (us03_metrics_finset w).card = (check_available_metrics w).length := by
    rw [us03_metrics_finset, List.card_toFinset, hnd.dedup]
  constructor
  · simp [validate_us03, hcard, ge_iff_le, decide_eq_true_iff]
  · intro x hx
    rw [us03_metrics_finset, List.mem_toFinset] at hx
    have hmem : ∃ t, classify_title t = some x := by
      revert hx
      unfold check_available_metrics
      split
      · split
        · intro hx
          rw [List.mem_dedup] at hx
          obtain ⟨t, _, ht⟩ := List.mem_filterMap.mp hx
          exact ⟨t, ht⟩
        · intro hx
          simp at hx
      · intro hx
        simp at hx
    obtain ⟨t, ht⟩ := hmem
    rcases classify_title_mem t x ht with rfl | rfl | rfl | rfl <;> simp
